import Mathlib

/-!
Verification of the huntr incremental chain-scanning and scoring pipeline.

The development shallowly embeds the pipeline of `src/app/api/tokens/route.ts`
and `src/lib/lib/database.ts`:

* JavaScript `number` values (liquidity, price change, timestamps) are
  modelled as `Rat`; timestamps, block heights and ages in whole minutes as
  `Int`; integer scores as `Nat`.
* Fallible external reads (ERC-20 field reads, store access, chain RPC) are
  modelled as `Except Unit` results or success flags supplied by an
  environment record; a JavaScript `try/catch` around such a call becomes a
  total Lean function that maps the failure outcome to the catch branch.
* The Postgres store is modelled as a list of rows; timestamps are measured
  in minutes, so the 2-hour freshness horizon is 120 and the 4-hour expiry
  horizon is 240.
* The `Math.random()` draws used for the synthesized market metrics are
  injected as explicit rational inputs `r1 .. r5` of the per-event
  environment, so every function is deterministic in its inputs.
-/

/-- Argument record of `calculateTokenScore` (route.ts lines 209-213). -/
structure TokenMetrics where
  ageMinutes : Rat
  liquidityUSD : Rat
  priceChangePercent : Rat
deriving DecidableEq

/-- `calculateTokenScore` (route.ts lines 209-248): sequential accumulation of
the age, liquidity and momentum factors, then `Math.min(30, score)`. -/
def calculateTokenScore (metrics : TokenMetrics) : Nat :=
  let score : Nat := 0
  let score :=
    if metrics.ageMinutes < 5 then score + 10
    else if metrics.ageMinutes < 15 then score + 8
    else if metrics.ageMinutes < 30 then score + 5
    else score
  let score :=
    if metrics.liquidityUSD > 20000 then score + 10
    else if metrics.liquidityUSD > 10000 then score + 8
    else if metrics.liquidityUSD > 5000 then score + 6
    else if metrics.liquidityUSD > 2000 then score + 3
    else score
  let score :=
    if metrics.priceChangePercent > 100 then score + 10
    else if metrics.priceChangePercent > 50 then score + 8
    else if metrics.priceChangePercent > 25 then score + 6
    else if metrics.priceChangePercent > 10 then score + 3
    else score
  min 30 score

/-- Age sub-score, written from the spec's bucket table (spec 4.1). -/
def specAgeSubScore (ageMinutes : Rat) : Nat :=
  if ageMinutes < 5 then 10
  else if ageMinutes < 15 then 8
  else if ageMinutes < 30 then 5
  else 0

/-- Liquidity sub-score, written from the spec's bucket table (spec 4.1). -/
def specLiquiditySubScore (liquidityUSD : Rat) : Nat :=
  if liquidityUSD > 20000 then 10
  else if liquidityUSD > 10000 then 8
  else if liquidityUSD > 5000 then 6
  else if liquidityUSD > 2000 then 3
  else 0

/-- Momentum sub-score, written from the spec's bucket table (spec 4.1). -/
def specMomentumSubScore (priceChangePercent : Rat) : Nat :=
  if priceChangePercent > 100 then 10
  else if priceChangePercent > 50 then 8
  else if priceChangePercent > 25 then 6
  else if priceChangePercent > 10 then 3
  else 0

/-- The age accumulation step adds exactly the age sub-score. -/
theorem ageChain_eq (s : Nat) (a : Rat) :
    (if a < 5 then s + 10 else if a < 15 then s + 8 else if a < 30 then s + 5 else s) =
      s + specAgeSubScore a := by
  unfold specAgeSubScore
  split_ifs <;> omega

/-- The liquidity accumulation step adds exactly the liquidity sub-score. -/
theorem liqChain_eq (s : Nat) (l : Rat) :
    (if l > 20000 then s + 10 else if l > 10000 then s + 8 else if l > 5000 then s + 6
      else if l > 2000 then s + 3 else s) = s + specLiquiditySubScore l := by
  unfold specLiquiditySubScore
  split_ifs <;> omega

/-- The momentum accumulation step adds exactly the momentum sub-score. -/
theorem momChain_eq (s : Nat) (p : Rat) :
    (if p > 100 then s + 10 else if p > 50 then s + 8 else if p > 25 then s + 6
      else if p > 10 then s + 3 else s) = s + specMomentumSubScore p := by
  unfold specMomentumSubScore
  split_ifs <;> omega

/-- The sequential accumulation in `calculateTokenScore` equals the clamped
sum of the three independent sub-scores. Shared helper for the score claims. -/
theorem calculateTokenScore_decomp (m : TokenMetrics) :
    calculateTokenScore m =
      min 30 (specAgeSubScore m.ageMinutes + specLiquiditySubScore m.liquidityUSD +
        specMomentumSubScore m.priceChangePercent) := by
  simp only [calculateTokenScore]
  rw [momChain_eq, liqChain_eq, ageChain_eq, Nat.zero_add]

/-- Each sub-score is at most 10. Shared helper for the score claims. -/
theorem subScores_le_ten (a l p : Rat) :
    specAgeSubScore a ≤ 10 ∧ specLiquiditySubScore l ≤ 10 ∧ specMomentumSubScore p ≤ 10 := by
  unfold specAgeSubScore specLiquiditySubScore specMomentumSubScore
  refine ⟨?_, ?_, ?_⟩ <;> split_ifs <;> decide

/-- Claim C1: for every input with non-negative age, liquidity and momentum,
`calculateTokenScore` returns exactly the sum of the age, liquidity and
momentum sub-scores clamped to at most 30, and the result lies in [0, 30]
(the result is a natural number, so the lower bound is by type). -/
theorem C1_score_formula (m : TokenMetrics)
    (h1 : 0 ≤ m.ageMinutes) (h2 : 0 ≤ m.liquidityUSD) (h3 : 0 ≤ m.priceChangePercent) :
    calculateTokenScore m =
      min 30 (specAgeSubScore m.ageMinutes + specLiquiditySubScore m.liquidityUSD +
        specMomentumSubScore m.priceChangePercent) ∧
    calculateTokenScore m ≤ 30 := by
  refine ⟨calculateTokenScore_decomp m, ?_⟩
  rw [calculateTokenScore_decomp m]
  exact min_le_left _ _

/-- Witness for C1 at the concrete input (age 0, liquidity 21000, momentum 60). -/
theorem C1_score_formula_witness :
    calculateTokenScore ⟨0, 21000, 60⟩ =
      min 30 (specAgeSubScore 0 + specLiquiditySubScore 21000 + specMomentumSubScore 60) ∧
    calculateTokenScore ⟨0, 21000, 60⟩ ≤ 30 :=
  C1_score_formula ⟨0, 21000, 60⟩ (by decide) (by decide) (by decide)

/-- `classifyTokenType` (route.ts lines 201-207); the JavaScript truthiness
test `hookData && hookData !== "0x"` becomes the two string comparisons. -/
def classifyTokenType (hookData : String) (fee : Nat) : String :=
  if fee == 3000 then "BASE_APP"
  else if fee == 10000 then "ZORA"
  else if hookData != "" && hookData != "0x" then "HOOKED"
  else "STANDARD"

/-- Claim C5: `classifyTokenType` is total, returns exactly one of the four
tags, and applies its rules in first-match order with the fee rules taking
precedence over the hook-payload rule (a hook payload is empty when it is
the empty string or the empty byte string "0x"). -/
theorem C5_classifier_rules (hookData : String) (fee : Nat) :
    (fee = 3000 → classifyTokenType hookData fee = "BASE_APP") ∧
    (fee ≠ 3000 → fee = 10000 → classifyTokenType hookData fee = "ZORA") ∧
    (fee ≠ 3000 → fee ≠ 10000 → hookData ≠ "" → hookData ≠ "0x" →
      classifyTokenType hookData fee = "HOOKED") ∧
    (fee ≠ 3000 → fee ≠ 10000 → (hookData = "" ∨ hookData = "0x") →
      classifyTokenType hookData fee = "STANDARD") ∧
    (classifyTokenType hookData fee = "BASE_APP" ∨
     classifyTokenType hookData fee = "ZORA" ∨
     classifyTokenType hookData fee = "HOOKED" ∨
     classifyTokenType hookData fee = "STANDARD") := by
  unfold classifyTokenType
  refine ⟨?_, ?_, ?_, ?_, ?_⟩
  · intro h; simp [h]
  · intro h1 h2; simp [h1, h2]
  · intro h1 h2 h3 h4; simp [h1, h2, h3, h4]
  · intro h1 h2 h3
    rcases h3 with h3 | h3 <;> simp [h1, h2, h3]
  · split_ifs <;> simp

/-- Witness for C5: the fee rule beats a non-empty hook payload, and each
branch is exercised at a concrete input. -/
theorem C5_classifier_rules_witness :
    classifyTokenType "0xdeadbeef" 3000 = "BASE_APP" ∧
    classifyTokenType "0xdeadbeef" 10000 = "ZORA" ∧
    classifyTokenType "0xdeadbeef" 500 = "HOOKED" ∧
    classifyTokenType "0x" 500 = "STANDARD" :=
  ⟨(C5_classifier_rules "0xdeadbeef" 3000).1 rfl,
   (C5_classifier_rules "0xdeadbeef" 10000).2.1 (by decide) rfl,
   (C5_classifier_rules "0xdeadbeef" 500).2.2.1 (by decide) (by decide) (by decide) (by decide),
   (C5_classifier_rules "0x" 500).2.2.2.1 (by decide) (by decide) (Or.inr rfl)⟩

/-- Result record of `getTokenMetadata` (route.ts line 194). -/
structure TokenMetadata where
  name : String
  symbol : String
  decimals : Nat
deriving DecidableEq

/-- The per-field `.catch(() => default)` fallback of route.ts lines 183-185:
a successful read keeps its value, a failed read yields the default. -/
def fieldOrDefault {α : Type} : Except Unit α → α → α
  | Except.ok v, _ => v
  | Except.error _, d => d

/-- `getTokenMetadata` (route.ts lines 174-199) as a function of the three
field-read outcomes: each field individually falls back to its default, then
the bounds check of line 189 either rejects (`none`, the JS `null`) or
returns the gathered metadata. -/
def getTokenMetadata (readName readSymbol : Except Unit String)
    (readDecimals : Except Unit Nat) : Option TokenMetadata :=
  let name := fieldOrDefault readName "Unknown Token"
  let symbol := fieldOrDefault readSymbol "UNK"
  let decimals := fieldOrDefault readDecimals 18
  if symbol.length > 20 || name.length > 100 then none
  else some { name := name, symbol := symbol, decimals := decimals }

/-- Claim C7: for every subset of the three field reads failing, as long as
each read that succeeds returns a value within the metadata bounds,
`getTokenMetadata` still returns a result, with the default substituted for
exactly the failed fields; so a single unreadable field never causes
resolution to return no result. -/
theorem C7_per_field_fallback (readName readSymbol : Except Unit String)
    (readDecimals : Except Unit Nat)
    (hn : ∀ s, readName = Except.ok s → s.length ≤ 100)
    (hs : ∀ s, readSymbol = Except.ok s → s.length ≤ 20) :
    getTokenMetadata readName readSymbol readDecimals =
      some { name := fieldOrDefault readName "Unknown Token",
             symbol := fieldOrDefault readSymbol "UNK",
             decimals := fieldOrDefault readDecimals 18 } := by
  unfold getTokenMetadata
  have hname : (fieldOrDefault readName "Unknown Token").length ≤ 100 := by
    cases readName with
    | ok s => exact hn s rfl
    | error e => cases e; decide
  have hsym : (fieldOrDefault readSymbol "UNK").length ≤ 20 := by
    cases readSymbol with
    | ok s => exact hs s rfl
    | error e => cases e; decide
  have : ((fieldOrDefault readSymbol "UNK").length > 20 ||
      (fieldOrDefault readName "Unknown Token").length > 100) = false := by
    simp only [Bool.or_eq_false_iff, decide_eq_false_iff_not, not_lt]
    exact ⟨hsym, hname⟩
  simp only [this, Bool.false_eq_true, if_false]

/-- Witness for C7: the name and decimals reads fail, the symbol read
succeeds; resolution still returns a result with the two defaults. -/
theorem C7_per_field_fallback_witness :
    getTokenMetadata (Except.error ()) (Except.ok "TST") (Except.error ()) =
      some { name := fieldOrDefault (Except.error ()) "Unknown Token",
             symbol := fieldOrDefault (Except.ok "TST") "UNK",
             decimals := fieldOrDefault (Except.error ()) 18 } :=
  C7_per_field_fallback (Except.error ()) (Except.ok "TST") (Except.error ())
    (by intro s h; cases h) (by intro s h; cases h; decide)

/-- Counterexample for claim C9 as stated: the score is not monotone
non-decreasing in `ageMinutes` — raising the age from 0 to 10 minutes
(others fixed at 0) strictly lowers the score from 10 to 8. -/
theorem C9_counterexample :
    (0 : Rat) ≤ 10 ∧
    ¬ calculateTokenScore ⟨0, 0, 0⟩ ≤ calculateTokenScore ⟨10, 0, 0⟩ := by
  decide

/-- Claim C9 (amended): `calculateTokenScore` is monotone non-increasing in
`ageMinutes` and monotone non-decreasing in `liquidityUSD` and in
`priceChangePercent`, each input varied with the other two held fixed. -/
theorem C9_monotonicity (a a1 a2 l l1 l2 p p1 p2 : Rat) :
    (a1 ≤ a2 → calculateTokenScore ⟨a2, l, p⟩ ≤ calculateTokenScore ⟨a1, l, p⟩) ∧
    (l1 ≤ l2 → calculateTokenScore ⟨a, l1, p⟩ ≤ calculateTokenScore ⟨a, l2, p⟩) ∧
    (p1 ≤ p2 → calculateTokenScore ⟨a, l, p1⟩ ≤ calculateTokenScore ⟨a, l, p2⟩) := by
  have hage : ∀ x y : Rat, x ≤ y → specAgeSubScore y ≤ specAgeSubScore x := by
    intro x y hxy
    unfold specAgeSubScore
    split_ifs <;> first | decide | linarith
  have hliq : ∀ x y : Rat, x ≤ y → specLiquiditySubScore x ≤ specLiquiditySubScore y := by
    intro x y hxy
    unfold specLiquiditySubScore
    split_ifs <;> first | decide | linarith
  have hmom : ∀ x y : Rat, x ≤ y → specMomentumSubScore x ≤ specMomentumSubScore y := by
    intro x y hxy
    unfold specMomentumSubScore
    split_ifs <;> first | decide | linarith
  refine ⟨?_, ?_, ?_⟩ <;> intro h <;>
    simp only [calculateTokenScore_decomp] <;>
    exact min_le_min (Nat.le_refl 30) (by
      first
      | exact Nat.add_le_add (Nat.add_le_add (hage _ _ h) (Nat.le_refl _)) (Nat.le_refl _)
      | exact Nat.add_le_add (Nat.add_le_add (Nat.le_refl _) (hliq _ _ h)) (Nat.le_refl _)
      | exact Nat.add_le_add (Nat.le_refl _) (hmom _ _ h))

/-- Witness for the amended C9 at concrete inputs crossing a bucket
boundary in each coordinate. -/
theorem C9_monotonicity_witness :
    (calculateTokenScore ⟨16, 0, 0⟩ ≤ calculateTokenScore ⟨4, 0, 0⟩) ∧
    (calculateTokenScore ⟨100, 4000, 0⟩ ≤ calculateTokenScore ⟨100, 15000, 0⟩) ∧
    (calculateTokenScore ⟨100, 0, 20⟩ ≤ calculateTokenScore ⟨100, 0, 60⟩) :=
  ⟨(C9_monotonicity 0 4 16 0 0 0 0 0 0).1 (by decide),
   (C9_monotonicity 100 0 0 0 4000 15000 0 0 0).2.1 (by decide),
   (C9_monotonicity 100 0 0 0 0 0 0 20 60).2.2 (by decide)⟩

/-- One row of the `tokens` table (database.ts). `detectedAt` and
`lastUpdated` are timestamps measured in minutes; `detected_at` and
`last_updated` default to the insertion time on the insert path, per the
spec's data model. -/
structure TokenRow where
  address : String
  symbol : String
  name : String
  poolAddress : String
  score : Nat
  liquidity : Rat
  price : Rat
  priceChange : Rat
  ageMinutes : Int
  marketCap : Rat
  volume24h : Rat
  isSpikingNow : Bool
  tokenType : String
  detectedAt : Int
  lastUpdated : Int
deriving DecidableEq

/-- Argument record of `saveToken` (database.ts lines 52-66). -/
structure NewTokenData where
  address : String
  symbol : String
  name : String
  poolAddress : String
  score : Nat
  liquidity : Rat
  price : Rat
  priceChange : Rat
  ageMinutes : Int
  marketCap : Rat
  volume24h : Rat
  isSpikingNow : Bool
  tokenType : String
deriving DecidableEq

/-- The `ON CONFLICT (address) DO UPDATE` row transformer of `saveToken`
(database.ts lines 72-82): on the conflicting row it sets score, liquidity,
price, price_change, age_minutes, last_updated, is_spiking_now, market_cap
and volume_24h from the excluded values and leaves every other column
(address, symbol, name, pool_address, token_type, detected_at) unchanged.
The address comparison is the store key's exact (case-sensitive) equality. -/
def saveTokenUpdate (t : NewTokenData) (now : Int) (r : TokenRow) : TokenRow :=
  if r.address == t.address then
    { r with
      score := t.score
      liquidity := t.liquidity
      price := t.price
      priceChange := t.priceChange
      ageMinutes := t.ageMinutes
      lastUpdated := now
      isSpikingNow := t.isSpikingNow
      marketCap := t.marketCap
      volume24h := t.volume24h }
  else r

/-- The row created by the INSERT arm of `saveToken` (database.ts lines
68-71): the thirteen listed columns from the arguments, with `detected_at`
and `last_updated` taking their column defaults (the current time). -/
def saveTokenInsertRow (t : NewTokenData) (now : Int) : TokenRow :=
  { address := t.address
    symbol := t.symbol
    name := t.name
    poolAddress := t.poolAddress
    score := t.score
    liquidity := t.liquidity
    price := t.price
    priceChange := t.priceChange
    ageMinutes := t.ageMinutes
    marketCap := t.marketCap
    volume24h := t.volume24h
    isSpikingNow := t.isSpikingNow
    tokenType := t.tokenType
    detectedAt := now
    lastUpdated := now }

/-- `saveToken` (database.ts lines 52-103) against the list-of-rows store:
the upsert updates the row with the exact same address key when one exists,
otherwise appends a fresh row. -/
def saveTokenStore (store : List TokenRow) (t : NewTokenData) (now : Int) : List TokenRow :=
  if store.any (fun r => r.address == t.address) then
    store.map (saveTokenUpdate t now)
  else
    store ++ [saveTokenInsertRow t now]

/-- The ORDER BY key of `getTopTokens` (database.ts line 130):
score descending, then detected_at descending. -/
def tokenBefore (a b : TokenRow) : Bool :=
  decide (b.score < a.score) || (a.score == b.score && decide (b.detectedAt ≤ a.detectedAt))

/-- Insertion step of the ranking sort. -/
def insertRanked (a : TokenRow) : List TokenRow → List TokenRow
  | [] => [a]
  | b :: bs => if tokenBefore a b then a :: b :: bs else b :: insertRanked a bs

/-- Ranking sort implementing the ORDER BY of `getTopTokens`. -/
def rankTokens : List TokenRow → List TokenRow
  | [] => []
  | a :: as => insertRanked a (rankTokens as)

/-- `getTopTokens` (database.ts lines 105-136): rows whose `detected_at`
lies within the 2-hour (120-minute) freshness horizon, ordered by score
descending then detected_at descending, limited to `limit` rows. -/
def getTopTokensStore (store : List TokenRow) (now : Int) (limit : Nat) : List TokenRow :=
  (rankTokens (store.filter (fun r => decide (now - 120 < r.detectedAt)))).take limit

/-- `updateTokenAges` (database.ts lines 138-149): rows within the freshness
horizon get `age_minutes` recomputed from `detected_at` and `last_updated`
set to now. -/
def updateTokenAgesStore (store : List TokenRow) (now : Int) : List TokenRow :=
  store.map (fun r =>
    if now - 120 < r.detectedAt then
      { r with ageMinutes := now - r.detectedAt, lastUpdated := now }
    else r)

/-- `cleanupOldTokens` (database.ts lines 151-159): rows older than the
4-hour (240-minute) expiry horizon are deleted. -/
def cleanupOldTokensStore (store : List TokenRow) (now : Int) : List TokenRow :=
  store.filter (fun r => !decide (r.detectedAt < now - 240))

/-- Claim C10: the upsert of `saveToken` never overwrites `detected_at` on
the update path — when a row with the same address exists, the
conflict-update sets score, liquidity, price, price_change, age_minutes,
last_updated, is_spiking_now, market_cap and volume_24h and leaves
`detected_at` (and every row with a different address) unchanged; on the
insert path `detected_at` is set to the insertion time. -/
theorem C10_detectedAt_immutable (store : List TokenRow) (t : NewTokenData) (now : Int) :
    ((store.any fun r => r.address == t.address) = true →
      saveTokenStore store t now = store.map (saveTokenUpdate t now) ∧
      (∀ r : TokenRow, (saveTokenUpdate t now r).detectedAt = r.detectedAt) ∧
      (∀ r : TokenRow, r.address = t.address →
        saveTokenUpdate t now r =
          { r with
            score := t.score
            liquidity := t.liquidity
            price := t.price
            priceChange := t.priceChange
            ageMinutes := t.ageMinutes
            lastUpdated := now
            isSpikingNow := t.isSpikingNow
            marketCap := t.marketCap
            volume24h := t.volume24h }) ∧
      (∀ r : TokenRow, r.address ≠ t.address → saveTokenUpdate t now r = r)) ∧
    ((store.any fun r => r.address == t.address) = false →
      saveTokenStore store t now = store ++ [saveTokenInsertRow t now] ∧
      (saveTokenInsertRow t now).detectedAt = now) := by
  constructor
  · intro h
    refine ⟨by simp [saveTokenStore, h], ?_, ?_, ?_⟩
    · intro r
      unfold saveTokenUpdate
      split_ifs <;> rfl
    · intro r hr
      unfold saveTokenUpdate
      simp [hr]
    · intro r hr
      unfold saveTokenUpdate
      simp [hr]
  · intro h
    exact ⟨by simp [saveTokenStore, h], rfl⟩

/-- Witness for C10: a two-row store in which the first row conflicts with
the incoming record; its detected_at is preserved while score is updated,
and the non-conflicting row is untouched. -/
theorem C10_detectedAt_immutable_witness :
    (saveTokenUpdate ⟨"0xA", "T", "Token", "p", 9, 1, 1, 1, 0, 1, 1, false, "STANDARD"⟩ 50
      ⟨"0xA", "T", "Token", "p", 4, 2, 2, 2, 3, 2, 2, false, "STANDARD", 7, 8⟩).detectedAt = 7 ∧
    (saveTokenUpdate ⟨"0xA", "T", "Token", "p", 9, 1, 1, 1, 0, 1, 1, false, "STANDARD"⟩ 50
      ⟨"0xA", "T", "Token", "p", 4, 2, 2, 2, 3, 2, 2, false, "STANDARD", 7, 8⟩).score = 9 ∧
    saveTokenUpdate ⟨"0xA", "T", "Token", "p", 9, 1, 1, 1, 0, 1, 1, false, "STANDARD"⟩ 50
      ⟨"0xB", "U", "Other", "q", 4, 2, 2, 2, 3, 2, 2, false, "STANDARD", 7, 8⟩ =
      ⟨"0xB", "U", "Other", "q", 4, 2, 2, 2, 3, 2, 2, false, "STANDARD", 7, 8⟩ := by
  have h := C10_detectedAt_immutable
    [⟨"0xA", "T", "Token", "p", 4, 2, 2, 2, 3, 2, 2, false, "STANDARD", 7, 8⟩]
    ⟨"0xA", "T", "Token", "p", 9, 1, 1, 1, 0, 1, 1, false, "STANDARD"⟩ 50
  have h1 := (h.1 (by decide)).2.1
    ⟨"0xA", "T", "Token", "p", 4, 2, 2, 2, 3, 2, 2, false, "STANDARD", 7, 8⟩
  have h2 := (h.1 (by decide)).2.2.1
    ⟨"0xA", "T", "Token", "p", 4, 2, 2, 2, 3, 2, 2, false, "STANDARD", 7, 8⟩ rfl
  have h3 := (h.1 (by decide)).2.2.2
    ⟨"0xB", "U", "Other", "q", 4, 2, 2, 2, 3, 2, 2, false, "STANDARD", 7, 8⟩ (by decide)
  exact ⟨h1, by rw [h2], h3⟩

/-- Reference asset: wrapped ETH on Base (route.ts line 8). -/
def BASE_WETH : String := "0x4200000000000000000000000000000000000006"

/-- Reference asset: USDC on Base (route.ts line 9). -/
def BASE_USDC : String := "0x833589fCD6eDb6E08f4c7C32D4f71b54bdA02913"

/-- Arguments of one Initialize event (route.ts lines 26-28, 110). -/
structure PoolEvent where
  poolId : String
  currency0 : String
  currency1 : String
  fee : Nat
  hookData : String
deriving DecidableEq

/-- Outcome environment for processing one event: the three ERC-20 field
reads, the success of the two store accesses made by `processPoolEvent`
(the dedup query and the upsert), and the five `Math.random()` draws of
route.ts lines 138-159. -/
structure EventEnv where
  readName : Except Unit String
  readSymbol : Except Unit String
  readDecimals : Except Unit Nat
  storeReadOk : Bool
  storeWriteOk : Bool
  r1 : Rat
  r2 : Rat
  r3 : Rat
  r4 : Rat
  r5 : Rat

/-- The JavaScript `toLowerCase()` used by the dedup check, as a structural
map over the characters (the library `String.map` recurses on byte
positions with a termination measure, which the kernel cannot evaluate, so
the embedding maps over the character list instead — the same function on
every string). -/
def lowerAscii (s : String) : String :=
  String.mk (s.data.map Char.toLower)

/-- The pool pairs one of the two reference assets (route.ts lines 113-116). -/
def relevantPair (ev : PoolEvent) : Bool :=
  (ev.currency0 == BASE_WETH || ev.currency1 == BASE_WETH) ||
  (ev.currency0 == BASE_USDC || ev.currency1 == BASE_USDC)

/-- The candidate (non-reference) leg of the pair (route.ts line 118). -/
def candidateTokenAddress (ev : PoolEvent) : String :=
  if ev.currency0 == BASE_WETH || ev.currency0 == BASE_USDC then ev.currency1 else ev.currency0

/-- The dedup test of route.ts lines 122-125: some row among the top 100
visible rows matches the candidate address case-insensitively. -/
def dedupHit (ev : PoolEvent) (store : List TokenRow) (now : Int) : Bool :=
  (getTopTokensStore store now 100).any
    (fun t => lowerAscii t.address == lowerAscii (candidateTokenAddress ev))

/-- The record assembled for a new token (route.ts lines 137-162), given the
resolved metadata and the per-event environment. -/
def assembleNewToken (ev : PoolEvent) (env : EventEnv) (md : TokenMetadata) : NewTokenData :=
  let liquidityUSD := env.r1 * 20000 + 5000
  let priceChangePercent := env.r2 * 50
  let score := calculateTokenScore ⟨0, liquidityUSD, priceChangePercent⟩
  { address := candidateTokenAddress ev
    symbol := md.symbol
    name := md.name
    poolAddress := ev.poolId
    score := score
    liquidity := liquidityUSD
    price := env.r3 * (1 / 1000) + 1 / 10000
    priceChange := priceChangePercent
    ageMinutes := 0
    marketCap := liquidityUSD * (env.r4 * 10 + 5)
    volume24h := liquidityUSD * (env.r5 * 2 + 1 / 2)
    isSpikingNow := decide (25 ≤ score)
    tokenType := classifyTokenType ev.hookData ev.fee }

/-- `processPoolEvent` (route.ts lines 108-172). The surrounding `try/catch`
makes the function total: a failing store access (modelled by the
`storeReadOk` / `storeWriteOk` flags) or a metadata rejection lands in a
branch returning `false` with the store unchanged, never a propagated
failure. Returns the route's boolean together with the resulting store. -/
def processPoolEvent (ev : PoolEvent) (env : EventEnv) (store : List TokenRow)
    (now : Int) : Bool × List TokenRow :=
  if !relevantPair ev then (false, store)
  else if !env.storeReadOk then (false, store)
  else if dedupHit ev store now then (false, store)
  else
    match getTokenMetadata env.readName env.readSymbol env.readDecimals with
    | none => (false, store)
    | some md =>
      if !env.storeWriteOk then (false, store)
      else (true, saveTokenStore store (assembleNewToken ev env md) now)

/-- Claim C2 (amended): `processPoolEvent` returns true exactly when the
event is a relevant pair, the dedup query succeeds and misses, metadata
resolves, and the store write succeeds — in which case the resulting store
is the upsert of the assembled record (a new row only when no exact-case
row for the address existed); on every discard or failure path it returns
false with the store unchanged, and no failure propagates (the function is
total by construction). -/
theorem C2_returns_true_iff_write (ev : PoolEvent) (env : EventEnv)
    (store : List TokenRow) (now : Int) :
    ((processPoolEvent ev env store now).1 = true ↔
      relevantPair ev = true ∧ env.storeReadOk = true ∧ dedupHit ev store now = false ∧
      (getTokenMetadata env.readName env.readSymbol env.readDecimals).isSome = true ∧
      env.storeWriteOk = true) ∧
    ((processPoolEvent ev env store now).1 = false →
      (processPoolEvent ev env store now).2 = store) ∧
    ((processPoolEvent ev env store now).1 = true →
      ∃ t : NewTokenData, t.address = candidateTokenAddress ev ∧
        (processPoolEvent ev env store now).2 = saveTokenStore store t now) := by
  unfold processPoolEvent
  rcases hrel : relevantPair ev with _ | _ <;>
    rcases hread : env.storeReadOk with _ | _ <;>
      rcases hdup : dedupHit ev store now with _ | _ <;>
        rcases hmd : getTokenMetadata env.readName env.readSymbol env.readDecimals
          with _ | md <;>
          rcases hwrite : env.storeWriteOk with _ | _ <;>
            simp_all <;>
            exact ⟨assembleNewToken ev env md, rfl, rfl⟩

/-- Witness for C2: a concrete successful event (WETH pair, fresh address,
clean reads) for the iff's reverse direction and the write existence, and a
concrete irrelevant event for the unchanged-store direction. -/
theorem C2_returns_true_iff_write_witness :
    (processPoolEvent ⟨"pool1", BASE_WETH, "0xaaaa", 3000, "0x"⟩
      ⟨Except.ok "Test", Except.ok "TST", Except.ok 18, true, true, 0, 0, 0, 0, 0⟩
      [] 0).1 = true ∧
    (processPoolEvent ⟨"pool1", "0x1111", "0x2222", 3000, "0x"⟩
      ⟨Except.ok "Test", Except.ok "TST", Except.ok 18, true, true, 0, 0, 0, 0, 0⟩
      [] 0).2 = [] := by
  constructor
  · exact (C2_returns_true_iff_write ⟨"pool1", BASE_WETH, "0xaaaa", 3000, "0x"⟩
      ⟨Except.ok "Test", Except.ok "TST", Except.ok 18, true, true, 0, 0, 0, 0, 0⟩
      [] 0).1.mpr (by refine ⟨?_, rfl, ?_, ?_, rfl⟩ <;> decide)
  · exact (C2_returns_true_iff_write ⟨"pool1", "0x1111", "0x2222", 3000, "0x"⟩
      ⟨Except.ok "Test", Except.ok "TST", Except.ok 18, true, true, 0, 0, 0, 0, 0⟩
      [] 0).2.1 (by decide)

/-- Counterexample for claim C2 as stated: the store already holds a row for
address "0xaaaa" in the exact same case, but that row is past the 2-hour
freshness horizon (detected at minute 0, the scan running at minute 200), so
the top-100 dedup query does not see it. `processPoolEvent` then resolves
metadata and the upsert takes the conflict-update path: the call returns
true although no new record was written — the store keeps the same single
address as before. -/
theorem C2_counterexample :
    (processPoolEvent ⟨"pool2", BASE_WETH, "0xaaaa", 3000, "0x"⟩
      ⟨Except.ok "Test", Except.ok "TST", Except.ok 18, true, true, 0, 0, 0, 0, 0⟩
      [⟨"0xaaaa", "OLD", "Old Token", "p0", 4, 2, 2, 2, 150, 2, 2, false, "STANDARD", 0, 0⟩]
      200).1 = true ∧
    (processPoolEvent ⟨"pool2", BASE_WETH, "0xaaaa", 3000, "0x"⟩
      ⟨Except.ok "Test", Except.ok "TST", Except.ok 18, true, true, 0, 0, 0, 0, 0⟩
      [⟨"0xaaaa", "OLD", "Old Token", "p0", 4, 2, 2, 2, 150, 2, 2, false, "STANDARD", 0, 0⟩]
      200).2.length = 1 ∧
    (processPoolEvent ⟨"pool2", BASE_WETH, "0xaaaa", 3000, "0x"⟩
      ⟨Except.ok "Test", Except.ok "TST", Except.ok 18, true, true, 0, 0, 0, 0, 0⟩
      [⟨"0xaaaa", "OLD", "Old Token", "p0", 4, 2, 2, 2, 150, 2, 2, false, "STANDARD", 0, 0⟩]
      200).2.map (fun r => r.address) = ["0xaaaa"] := by
  decide

/-- Claim C4 (amended): if the dedup query — the top 100 rows within the
freshness horizon — returns some row whose address matches the candidate
address case-insensitively, then `processPoolEvent` discards the event,
returning false with the store unchanged. (When the existing row is not
visible to that query, a differently-cased duplicate can be inserted, since
the store key is case-sensitive; see the counterexample.) -/
theorem C4_dedup_discards (ev : PoolEvent) (env : EventEnv) (store : List TokenRow)
    (now : Int) (h : dedupHit ev store now = true) :
    processPoolEvent ev env store now = (false, store) := by
  unfold processPoolEvent
  rcases hrel : relevantPair ev with _ | _ <;>
    rcases hread : env.storeReadOk with _ | _ <;> simp_all

/-- Witness for the amended C4: the store holds a fresh visible row for
"0xABCD"; an event for "0xabcd" is discarded with the store unchanged. -/
theorem C4_dedup_discards_witness :
    processPoolEvent ⟨"pool3", BASE_WETH, "0xabcd", 3000, "0x"⟩
      ⟨Except.ok "Test", Except.ok "TST", Except.ok 18, true, true, 0, 0, 0, 0, 0⟩
      [⟨"0xABCD", "OLD", "Old Token", "p0", 4, 2, 2, 2, 50, 2, 2, false, "STANDARD", 50, 50⟩]
      100 =
    (false,
      [⟨"0xABCD", "OLD", "Old Token", "p0", 4, 2, 2, 2, 50, 2, 2, false, "STANDARD", 50, 50⟩]) :=
  C4_dedup_discards ⟨"pool3", BASE_WETH, "0xabcd", 3000, "0x"⟩
    ⟨Except.ok "Test", Except.ok "TST", Except.ok 18, true, true, 0, 0, 0, 0, 0⟩
    [⟨"0xABCD", "OLD", "Old Token", "p0", 4, 2, 2, 2, 50, 2, 2, false, "STANDARD", 50, 50⟩]
    100 (by decide)

/-- Counterexample for claim C4 as stated: the store contains a row for
"0xABCD" (detected at minute 0) that is past the freshness horizon at scan
time (minute 200), so the dedup query misses it; processing an event for
the same address written "0xabcd" inserts a second record — the store ends
with two rows whose addresses are equal up to case. -/
theorem C4_counterexample :
    (processPoolEvent ⟨"pool3", BASE_WETH, "0xabcd", 3000, "0x"⟩
      ⟨Except.ok "Test", Except.ok "TST", Except.ok 18, true, true, 0, 0, 0, 0, 0⟩
      [⟨"0xABCD", "OLD", "Old Token", "p0", 4, 2, 2, 2, 150, 2, 2, false, "STANDARD", 0, 0⟩]
      200).1 = true ∧
    (processPoolEvent ⟨"pool3", BASE_WETH, "0xabcd", 3000, "0x"⟩
      ⟨Except.ok "Test", Except.ok "TST", Except.ok 18, true, true, 0, 0, 0, 0, 0⟩
      [⟨"0xABCD", "OLD", "Old Token", "p0", 4, 2, 2, 2, 150, 2, 2, false, "STANDARD", 0, 0⟩]
      200).2.map (fun r => lowerAscii r.address) = ["0xabcd", "0xabcd"] := by
  decide

/-- Claim C6: when the gathered metadata violates the bounds (symbol longer
than 20 or name longer than 100 after the per-field fallbacks), resolution
returns the sentinel `none` instead of a failure, and `processPoolEvent`
discards the event: it returns false and the store is unchanged — no store
write occurs. -/
theorem C6_invalid_metadata_discarded (ev : PoolEvent) (env : EventEnv)
    (store : List TokenRow) (now : Int)
    (h : 20 < (fieldOrDefault env.readSymbol "UNK").length ∨
      100 < (fieldOrDefault env.readName "Unknown Token").length) :
    getTokenMetadata env.readName env.readSymbol env.readDecimals = none ∧
    processPoolEvent ev env store now = (false, store) := by
  have hmd : getTokenMetadata env.readName env.readSymbol env.readDecimals = none := by
    unfold getTokenMetadata
    have hcond : ((fieldOrDefault env.readSymbol "UNK").length > 20 ||
        (fieldOrDefault env.readName "Unknown Token").length > 100) = true := by
      rcases h with h | h <;> simp [h]
    simp only [hcond, if_true]
  refine ⟨hmd, ?_⟩
  unfold processPoolEvent
  rcases hrel : relevantPair ev with _ | _ <;>
    rcases hread : env.storeReadOk with _ | _ <;>
      rcases hdup : dedupHit ev store now with _ | _ <;> simp_all

/-- Witness for C6: a successfully read 25-character symbol makes resolution
return the sentinel and the event is discarded with the store unchanged. -/
theorem C6_invalid_metadata_discarded_witness :
    getTokenMetadata (Except.ok "Test") (Except.ok "AAAAAAAAAAAAAAAAAAAAAAAAA")
      (Except.ok 18) = none ∧
    processPoolEvent ⟨"pool4", BASE_WETH, "0xbbbb", 3000, "0x"⟩
      ⟨Except.ok "Test", Except.ok "AAAAAAAAAAAAAAAAAAAAAAAAA", Except.ok 18,
        true, true, 0, 0, 0, 0, 0⟩ [] 0 = (false, []) :=
  C6_invalid_metadata_discarded ⟨"pool4", BASE_WETH, "0xbbbb", 3000, "0x"⟩
    ⟨Except.ok "Test", Except.ok "AAAAAAAAAAAAAAAAAAAAAAAAA", Except.ok 18,
      true, true, 0, 0, 0, 0, 0⟩ [] 0 (Or.inl (by decide))

/-- The block-range start rule of route.ts line 46: from the cursor plus one
when the cursor is set (positive), otherwise a 200-block lookback from the
current head. -/
def scanFrom (cursor head : Int) : Int :=
  if 0 < cursor then cursor + 1 else head - 200

/-- Per-cycle environment of one `GET` invocation (route.ts lines 33-106):
success of the two bulk store maintenance calls, the chain-head read, the
event fetch and the final top-N query; the chain's pool-creation events
tagged with their block heights; and the per-event processing environments,
indexed by the event's position in the fetched list. -/
structure ChainEnv where
  updateAgesOk : Bool
  cleanupOk : Bool
  blockNumberResult : Except Unit Int
  fetchOk : Bool
  events : List (Int × PoolEvent)
  eventEnvs : Nat → EventEnv
  topTokensOk : Bool

/-- Process-wide mutable state of the route: the `lastBlockProcessed`
cursor (route.ts line 31) and the store. -/
structure ScanState where
  lastBlockProcessed : Int
  store : List TokenRow

/-- The JSON-shaped response of one cycle: the success summary of route.ts
lines 75-81, the degraded cached response of lines 88-93, or the status-500
total failure of lines 95-103. -/
inductive GetOutcome where
  | success (tokens : List TokenRow) (fromBlock toBlock : Int)
      (newTokensFound totalEvents : Nat)
  | degraded (tokens : List TokenRow)
  | hardFailure
deriving DecidableEq

/-- The catch block of route.ts lines 82-104: serve the top-N query as a
degraded response when the store still answers, otherwise report total
failure. -/
def recoverOutcome (store : List TokenRow) (env : ChainEnv) (now : Int) : GetOutcome :=
  if env.topTokensOk then GetOutcome.degraded (getTopTokensStore store now 20)
  else GetOutcome.hardFailure

/-- The per-event loop of route.ts lines 61-65: run `processPoolEvent` over
the fetched events in order, counting the events that yielded a new record,
threading the store. -/
def processEvents (evs : List PoolEvent) (envs : Nat → EventEnv) (i : Nat)
    (store : List TokenRow) (now : Int) : Nat × List TokenRow :=
  match evs with
  | [] => (0, store)
  | ev :: rest =>
    let r := processPoolEvent ev (envs i) store now
    let rr := processEvents rest envs (i + 1) r.2 now
    ((if r.1 then 1 else 0) + rr.1, rr.2)

/-- One `GET` cycle (route.ts lines 33-106): age and clean the store, read
the chain head, compute the range, fetch the events in the range, process
each event, advance the cursor, and answer the top-N query. A failing
external call lands in the catch block with the store as it was at that
point and the cursor untouched; the cursor is written (line 68) only after
the fetch and the whole per-event loop finish. -/
def runGET (st : ScanState) (env : ChainEnv) (now : Int) : ScanState × GetOutcome :=
  if !env.updateAgesOk then (st, recoverOutcome st.store env now)
  else
    let store1 := updateTokenAgesStore st.store now
    if !env.cleanupOk then ({ st with store := store1 }, recoverOutcome store1 env now)
    else
      let store2 := cleanupOldTokensStore store1 now
      match env.blockNumberResult with
      | Except.error _ => ({ st with store := store2 }, recoverOutcome store2 env now)
      | Except.ok currentBlock =>
        let fromBlock := scanFrom st.lastBlockProcessed currentBlock
        if !env.fetchOk then ({ st with store := store2 }, recoverOutcome store2 env now)
        else
          let logs := (env.events.filter
            (fun be => decide (fromBlock ≤ be.1) && decide (be.1 ≤ currentBlock))).map
            (fun be => be.2)
          let res := processEvents logs env.eventEnvs 0 store2 now
          let st2 : ScanState := { lastBlockProcessed := currentBlock, store := res.2 }
          if env.topTokensOk then
            (st2, GetOutcome.success (getTopTokensStore res.2 now 20) fromBlock currentBlock
              res.1 logs.length)
          else (st2, recoverOutcome res.2 env now)

/-- A block filter over an inverted (empty) range keeps nothing. -/
theorem filter_block_range_empty (l : List (Int × PoolEvent)) (f t : Int) (h : t < f) :
    l.filter (fun be => decide (f ≤ be.1) && decide (be.1 ≤ t)) = [] := by
  induction l with
  | nil => rfl
  | cons hd tl ih =>
    have hc : (decide (f ≤ hd.1) && decide (hd.1 ≤ t)) = false := by
      by_cases hf : f ≤ hd.1
      · have hn : ¬ hd.1 ≤ t := by omega
        simp [hf, hn]
      · simp [hf]
    simp only [List.filter, hc]
    exact ih

/-- Claim C3: the cursor is written only after the event fetch and the whole
per-event loop complete — a cycle failing in store maintenance, chain-head
read or event fetch leaves the cursor unchanged, so the same range is
retried next invocation; a cycle that completes fetch and processing with
head H sets the cursor to H, and (for H positive) the next cycle computes
its range start as H + 1. -/
theorem C3_cursor_advance (st : ScanState) (env : ChainEnv) (now : Int) :
    ((env.updateAgesOk = false ∨ env.cleanupOk = false ∨
        env.blockNumberResult = Except.error () ∨ env.fetchOk = false) →
      (runGET st env now).1.lastBlockProcessed = st.lastBlockProcessed) ∧
    (∀ H : Int, env.updateAgesOk = true → env.cleanupOk = true →
      env.blockNumberResult = Except.ok H → env.fetchOk = true →
      (runGET st env now).1.lastBlockProcessed = H ∧
      (0 < H → ∀ head2 : Int,
        scanFrom (runGET st env now).1.lastBlockProcessed head2 = H + 1)) := by
  rcases h1 : env.updateAgesOk with _ | _ <;>
    rcases h2 : env.cleanupOk with _ | _ <;>
      rcases h3 : env.blockNumberResult with e | H0 <;>
        rcases h4 : env.fetchOk with _ | _ <;>
          rcases h5 : env.topTokensOk with _ | _ <;>
            constructor <;> (intro h; simp_all [runGET])
  all_goals
    intro hEq hH head2
    subst hEq
    simp [scanFrom, hH]

/-- Witness for C3: with cursor 100 and head 150, a failed fetch leaves the
cursor at 100; a clean cycle sets it to 150 and the next range start is 151. -/
theorem C3_cursor_advance_witness :
    (runGET ⟨100, []⟩ ⟨true, true, Except.ok 150, false, [], fun _ =>
        ⟨Except.ok "T", Except.ok "T", Except.ok 18, true, true, 0, 0, 0, 0, 0⟩, true⟩
      0).1.lastBlockProcessed = 100 ∧
    (runGET ⟨100, []⟩ ⟨true, true, Except.ok 150, true, [], fun _ =>
        ⟨Except.ok "T", Except.ok "T", Except.ok 18, true, true, 0, 0, 0, 0, 0⟩, true⟩
      0).1.lastBlockProcessed = 150 ∧
    scanFrom (runGET ⟨100, []⟩ ⟨true, true, Except.ok 150, true, [], fun _ =>
        ⟨Except.ok "T", Except.ok "T", Except.ok 18, true, true, 0, 0, 0, 0, 0⟩, true⟩
      0).1.lastBlockProcessed 999 = 151 :=
  ⟨(C3_cursor_advance ⟨100, []⟩ ⟨true, true, Except.ok 150, false, [], fun _ =>
      ⟨Except.ok "T", Except.ok "T", Except.ok 18, true, true, 0, 0, 0, 0, 0⟩, true⟩ 0).1
      (Or.inr (Or.inr (Or.inr rfl))),
   ((C3_cursor_advance ⟨100, []⟩ ⟨true, true, Except.ok 150, true, [], fun _ =>
      ⟨Except.ok "T", Except.ok "T", Except.ok 18, true, true, 0, 0, 0, 0, 0⟩, true⟩ 0).2
      150 rfl rfl rfl rfl).1,
   ((C3_cursor_advance ⟨100, []⟩ ⟨true, true, Except.ok 150, true, [], fun _ =>
      ⟨Except.ok "T", Except.ok "T", Except.ok 18, true, true, 0, 0, 0, 0, 0⟩, true⟩ 0).2
      150 rfl rfl rfl rfl).2 (by decide) 999⟩

/-- Claim C8: when the chain head H is not strictly greater than the (set)
cursor, the computed range is empty (its start exceeds H), and the cycle
ends successfully with zero events processed and zero totalEvents in the
summary, the store touched only by the aging and cleanup steps. -/
theorem C8_empty_range (st : ScanState) (env : ChainEnv) (now : Int) (H : Int)
    (h1 : env.updateAgesOk = true) (h2 : env.cleanupOk = true)
    (h3 : env.blockNumberResult = Except.ok H) (h4 : env.fetchOk = true)
    (h5 : env.topTokensOk = true) (h6 : 0 < st.lastBlockProcessed)
    (h7 : H ≤ st.lastBlockProcessed) :
    H < scanFrom st.lastBlockProcessed H ∧
    runGET st env now =
      (⟨H, cleanupOldTokensStore (updateTokenAgesStore st.store now) now⟩,
       GetOutcome.success
         (getTopTokensStore (cleanupOldTokensStore (updateTokenAgesStore st.store now) now)
           now 20)
         (st.lastBlockProcessed + 1) H 0 0) := by
  have hf : scanFrom st.lastBlockProcessed H = st.lastBlockProcessed + 1 := by
    simp [scanFrom, h6]
  have hrange : H < scanFrom st.lastBlockProcessed H := by omega
  refine ⟨hrange, ?_⟩
  have hempty : env.events.filter
      (fun be => decide (st.lastBlockProcessed + 1 ≤ be.1) && decide (be.1 ≤ H)) = [] :=
    filter_block_range_empty env.events (st.lastBlockProcessed + 1) H (by omega)
  simp [runGET, h1, h2, h3, h4, h5, hf, hempty, processEvents]

/-- Witness for C8: cursor 150, head 150, one chain event at block 150 —
outside the empty range [151, 150] — so the cycle reports zero events and
zero new tokens. -/
theorem C8_empty_range_witness :
    (150 : Int) < scanFrom 150 150 ∧
    runGET ⟨150, []⟩ ⟨true, true, Except.ok 150, true,
        [(150, ⟨"pool9", BASE_WETH, "0xcccc", 3000, "0x"⟩)], fun _ =>
        ⟨Except.ok "T", Except.ok "T", Except.ok 18, true, true, 0, 0, 0, 0, 0⟩, true⟩
      0 =
      (⟨150, cleanupOldTokensStore (updateTokenAgesStore [] 0) 0⟩,
       GetOutcome.success
         (getTopTokensStore (cleanupOldTokensStore (updateTokenAgesStore [] 0) 0) 0 20)
         151 150 0 0) :=
  C8_empty_range ⟨150, []⟩ ⟨true, true, Except.ok 150, true,
      [(150, ⟨"pool9", BASE_WETH, "0xcccc", 3000, "0x"⟩)], fun _ =>
      ⟨Except.ok "T", Except.ok "T", Except.ok 18, true, true, 0, 0, 0, 0, 0⟩, true⟩
    0 150 rfl rfl rfl rfl rfl (by decide) (by decide)
